import Mathlib

/-!
Verification of the packaging manifest of the `daemon` repository.

The sole source file of the repository is `setup.py`, a declarative call to
`setuptools.setup`.  We embed the manifest shallowly: Python literal values
become `PyValue`, the argument expressions of the call become `PyExpr`
(parameterised over an evaluation environment, so that independence from
environment variables, files and stdin is provable), and the statements of
`setup.py` become `PyStmt`.  The entry-point specification string is parsed
by `parseEntryPoint`, which follows the standard entry-point syntax
`name = module:attr [extras]` used by the packaging tools.
-/

namespace SetupManifest

/-- A Python value appearing in the manifest: a string, a list of strings,
or an entry-points mapping from a group name to a list of specification
strings. -/
inductive PyValue where
  | str (s : String)
  | strList (xs : List String)
  | groups (gs : List (String × List String))
deriving DecidableEq, Repr

/-- An atomic Python expression: a string literal, or a read of an
environment variable, a file, or standard input.  Only the literal form
occurs in `setup.py`; the read forms exist so that independence from the
environment is a contentful statement. -/
inductive PyAtom where
  | strLit (s : String)
  | envRead (var : String)
  | fileRead (path : String)
  | inputRead
deriving DecidableEq, Repr

/-- A Python expression of the shapes occurring as `setup` arguments: an
atom, a list of atoms, or a dict literal with string keys mapping to lists
of atoms (the shape of the `entry_points` argument). -/
inductive PyExpr where
  | atom (a : PyAtom)
  | listLit (xs : List PyAtom)
  | dictLit (entries : List (String × List PyAtom))
deriving DecidableEq, Repr

/-- The evaluation environment an expression could read from: environment
variables, file contents, and standard input. -/
structure Env where
  vars : String → String
  files : String → String
  stdin : String

/-- Evaluate an atomic expression to its string value in an environment. -/
def PyAtom.eval (env : Env) : PyAtom → String
  | .strLit s => s
  | .envRead v => env.vars v
  | .fileRead p => env.files p
  | .inputRead => env.stdin

/-- Evaluate an expression to a value in an environment. -/
def PyExpr.eval (env : Env) : PyExpr → PyValue
  | .atom a => .str (a.eval env)
  | .listLit xs => .strList (xs.map (PyAtom.eval env))
  | .dictLit es => .groups (es.map (fun kv => (kv.1, kv.2.map (PyAtom.eval env))))

/-- An atom is a literal when it reads nothing from the environment. -/
def PyAtom.isLiteral : PyAtom → Bool
  | .strLit _ => true
  | _ => false

/-- An expression is a literal when every atom in it is a literal. -/
def PyExpr.isLiteral : PyExpr → Bool
  | .atom a => a.isLiteral
  | .listLit xs => xs.all PyAtom.isLiteral
  | .dictLit es => es.all (fun kv => kv.2.all PyAtom.isLiteral)

/-- A top-level Python statement of the shapes relevant to `setup.py`.
The file contains no nested blocks, so conditional and try statements are
recorded as markers without their bodies. -/
inductive PyStmt where
  | importFrom (module : String) (names : List String)
  | exprCall (fn : String) (kwargs : List (String × PyExpr))
  | funcDef (name : String) (params : List String)
  | assign (target : String) (value : PyExpr)
  | ifStmt
  | raiseStmt (exc : String)
  | tryStmt
deriving DecidableEq, Repr

/-- The keyword arguments of the `setup(...)` call in `setup.py`, at the
expression level, in source order. -/
def setupKwargExprs : List (String × PyExpr) :=
  [("name", .atom (.strLit "mymodule")),
   ("version", .atom (.strLit "0.1")),
   ("description", .atom (.strLit "My Awesome Python Module")),
   ("py_modules", .listLit [.strLit "myscript"]),
   ("entry_points", .dictLit [("console_scripts", [.strLit "mydaemon = myscript:main"])])]

/-- The statements of `setup.py`, in source order: the import of `setup`
from `setuptools`, then the single `setup(...)` call. -/
def setupPyStmts : List PyStmt :=
  [.importFrom "setuptools" ["setup"],
   .exprCall "setup" setupKwargExprs]

/-- Evaluate a keyword-argument list in an environment. -/
def evalKwargs (env : Env) (kws : List (String × PyExpr)) : List (String × PyValue) :=
  kws.map (fun kv => (kv.1, kv.2.eval env))

/-- The keyword arguments of the `setup(...)` call at the value level. -/
def setupKwargs : List (String × PyValue) :=
  [("name", .str "mymodule"),
   ("version", .str "0.1"),
   ("description", .str "My Awesome Python Module"),
   ("py_modules", .strList ["myscript"]),
   ("entry_points", .groups [("console_scripts", ["mydaemon = myscript:main"])])]

/-- The source files of the repository with their statements: `setup.py`
is the only source file. -/
def repoSourceFiles : List (String × List PyStmt) :=
  [("setup.py", setupPyStmts)]

/-- Whether a value is a plain string. -/
def PyValue.isStr : PyValue → Bool
  | .str _ => true
  | _ => false

/-- Whether a value is a list of strings. -/
def PyValue.isStrList : PyValue → Bool
  | .strList _ => true
  | _ => false

/-- The number of entry-point groups in a value (zero for non-mappings). -/
def PyValue.groupCount : PyValue → Nat
  | .groups gs => gs.length
  | _ => 0

/-- The total number of entry-point specification strings in a value. -/
def PyValue.specCount : PyValue → Nat
  | .groups gs => (gs.map (fun g => g.2.length)).sum
  | _ => 0

/-- Whether a statement is a call to the given function. -/
def PyStmt.isCallTo (fn : String) : PyStmt → Bool
  | .exprCall f _ => f == fn
  | _ => false

/-- Whether a statement defines a function with the given name. -/
def PyStmt.definesFunction (fn : String) : PyStmt → Bool
  | .funcDef n _ => n == fn
  | _ => false

/-- Whether a statement is a conditional construct. -/
def PyStmt.isConditional : PyStmt → Bool
  | .ifStmt => true
  | _ => false

/-- Whether a statement raises or handles errors. -/
def PyStmt.isErrorRaising : PyStmt → Bool
  | .raiseStmt _ => true
  | .tryStmt => true
  | _ => false

/-- Whether a character is horizontal whitespace. -/
def isSpaceChar (c : Char) : Bool := c == ' ' || c == '\t'

/-- Strip leading and trailing whitespace from a character list. -/
def trimChars (l : List Char) : List Char :=
  ((l.dropWhile isSpaceChar).reverse.dropWhile isSpaceChar).reverse

/-- Split a character list at the first occurrence of a character, returning
the parts before and after it, or `none` when it does not occur. -/
def splitFirst (c : Char) : List Char → Option (List Char × List Char)
  | [] => none
  | x :: xs =>
    if x == c then some ([], xs)
    else
      match splitFirst c xs with
      | some p => some (x :: p.1, p.2)
      | none => none

/-- Whether a character may occur in a module or attribute name: a letter,
a digit, or an underscore (the character class of the entry-point syntax). -/
def isWordChar (c : Char) : Bool := c.isAlphanum || c == '_'

/-- Whether a character list is a non-empty dotted name made of word
characters and dots, as the entry-point syntax requires of the module and
attribute parts. -/
def isDottedName (l : List Char) : Bool :=
  !l.isEmpty && l.all (fun c => isWordChar c || c == '.')

/-- A parsed entry point: the command name, the module, the optional
attribute reference within the module, and the optional extras
specification. -/
structure EntryPoint where
  name : String
  module : String
  attr : Option String
  extras : Option String
deriving DecidableEq, Repr

/-- Parse an entry-point specification string of the standard form
`name = module:attr [extras]`: the name is everything before the first
`=`, the optional extras are the bracketed suffix, and the reference is a
dotted module name optionally followed by `:` and a dotted attribute.
Whitespace around each part is ignored. -/
def parseEntryPoint (s : String) : Option EntryPoint :=
  match splitFirst '=' s.data with
  | none => none
  | some (n, v) =>
    let nm := trimChars n
    let rest := trimChars v
    let pr :=
      match splitFirst '[' rest with
      | none => (rest, (none : Option String))
      | some (r, e) => (trimChars r, some (String.mk ('[' :: e)))
    if nm.isEmpty then none
    else
      match splitFirst ':' pr.1 with
      | none =>
        if isDottedName pr.1 then
          some ⟨String.mk nm, String.mk pr.1, none, pr.2⟩
        else none
      | some (m, a) =>
        let md := trimChars m
        let att := trimChars a
        if isDottedName md && isDottedName att then
          some ⟨String.mk nm, String.mk md, some (String.mk att), pr.2⟩
        else none

/-- Whether a string is a well-formed package or command name: non-empty
and made of ASCII letters, digits, hyphens or underscores. -/
def asciiNameOk (s : String) : Bool :=
  !s.isEmpty && s.data.all (fun c => c.isAlpha || c.isDigit || c == '-' || c == '_')

/-- Whether a string is a valid Python identifier restricted to ASCII: a
letter or underscore followed by letters, digits or underscores. -/
def isPyIdent (s : String) : Bool :=
  match s.data with
  | [] => false
  | c :: cs => (c.isAlpha || c == '_') && cs.all (fun d => d.isAlphanum || d == '_')

/-- The length of the string list held by a value (zero for non-lists). -/
def PyValue.strListLength : PyValue → Nat
  | .strList xs => xs.length
  | _ => 0

/-- An environment in which every variable, file and standard input is the
empty string, used to instantiate environment-quantified statements. -/
def trivEnv : Env := ⟨fun _ => "", fun _ => "", ""⟩

/-- Claim C1: the manifest registers exactly one console-script entry
point: the `entry_points` argument has exactly one group,
`console_scripts`, whose list has exactly one element, and that element
maps the command name `mydaemon` to module `myscript`, attribute `main`. -/
theorem C1_single_console_script_entry_point :
    setupKwargs.lookup "entry_points" =
      some (.groups [("console_scripts", ["mydaemon = myscript:main"])]) ∧
    (setupKwargs.lookup "entry_points").map PyValue.groupCount = some 1 ∧
    (setupKwargs.lookup "entry_points").map PyValue.specCount = some 1 ∧
    (parseEntryPoint "mydaemon = myscript:main").map
        (fun ep => (ep.name, ep.module, ep.attr)) =
      some ("mydaemon", "myscript", some "main") := by
  decide

/-- Claim C2: the entry-point specification string carries a bare
attribute reference and nothing else: it parses to name `mydaemon`, module
`myscript`, attribute `main` and no extras, and the attribute is a single
plain word (no dots, no call syntax, no arguments). -/
theorem C2_bare_attribute_reference_no_extras :
    parseEntryPoint "mydaemon = myscript:main" =
      some ⟨"mydaemon", "myscript", some "main", none⟩ ∧
    (parseEntryPoint "mydaemon = myscript:main").map EntryPoint.extras =
      some none ∧
    (String.data "main").all isWordChar = true := by
  decide

/-- Claim C3: the `py_modules` argument declares exactly one module, named
`myscript`. -/
theorem C3_py_modules_single_myscript :
    setupKwargs.lookup "py_modules" = some (.strList ["myscript"]) ∧
    (setupKwargs.lookup "py_modules").map PyValue.strListLength = some 1 := by
  decide

/-- Claim C4: the setup call passes exactly the five declarations — a
string name, a string version, a string description, a module list, and a
single entry-point mapping with a single specification — and nothing
else. -/
theorem C4_exactly_these_declarations :
    setupKwargs.map Prod.fst =
      ["name", "version", "description", "py_modules", "entry_points"] ∧
    (setupKwargs.lookup "name").map PyValue.isStr = some true ∧
    (setupKwargs.lookup "version").map PyValue.isStr = some true ∧
    (setupKwargs.lookup "description").map PyValue.isStr = some true ∧
    (setupKwargs.lookup "py_modules").map PyValue.isStrList = some true ∧
    (setupKwargs.lookup "entry_points").map PyValue.groupCount = some 1 ∧
    (setupKwargs.lookup "entry_points").map PyValue.specCount = some 1 := by
  decide

/-- Claim C5: every identifier the manifest declares is well-formed for
its role — the package name `mymodule` and command name `mydaemon` are
non-empty ASCII names, the module name `myscript` and callable name `main`
are valid Python identifiers — and no declaration is repeated: the keyword
keys are pairwise distinct and the single entry point is declared once. -/
theorem C5_identifiers_well_formed_and_unique :
    setupKwargs.lookup "name" = some (.str "mymodule") ∧
    asciiNameOk "mymodule" = true ∧
    setupKwargs.lookup "py_modules" = some (.strList ["myscript"]) ∧
    isPyIdent "myscript" = true ∧
    (parseEntryPoint "mydaemon = myscript:main").map EntryPoint.name =
      some "mydaemon" ∧
    asciiNameOk "mydaemon" = true ∧
    (parseEntryPoint "mydaemon = myscript:main").map EntryPoint.attr =
      some (some "main") ∧
    isPyIdent "main" = true ∧
    (setupKwargs.map Prod.fst).Nodup ∧
    (setupKwargs.lookup "entry_points").map PyValue.specCount = some 1 := by
  decide

/-- Claim C6: the implementation module is absent: the only source file of
the repository is `setup.py`, no file `myscript.py` exists, and no
statement in any source file defines a function named `main`. -/
theorem C6_myscript_module_absent :
    repoSourceFiles.map Prod.fst = ["setup.py"] ∧
    "myscript.py" ∉ repoSourceFiles.map Prod.fst ∧
    repoSourceFiles.all
      (fun f => f.2.all (fun st => !(st.definesFunction "main"))) = true := by
  decide

/-- Claim C7: the manifest defines no error handling of its own: no
statement of `setup.py` is a conditional construct and none raises or
handles an error. -/
theorem C7_no_conditional_or_error_raising :
    setupPyStmts.all
      (fun st => !st.isConditional && !st.isErrorRaising) = true := by
  decide

/-- Claim C8: the three string fields are name `mymodule`, version `0.1`,
and description `My Awesome Python Module`; the package name differs from
both the module name and the command name. -/
theorem C8_concrete_string_field_values :
    setupKwargs.lookup "name" = some (.str "mymodule") ∧
    setupKwargs.lookup "version" = some (.str "0.1") ∧
    setupKwargs.lookup "description" =
      some (.str "My Awesome Python Module") ∧
    "mymodule" ≠ "myscript" ∧ "mymodule" ≠ "mydaemon" := by
  decide

/-- Claim C9: the manifest declares no dependencies: the setup call passes
no `install_requires`, `setup_requires`, `extras_require`, or
`python_requires` argument. -/
theorem C9_no_dependency_declarations :
    setupKwargs.lookup "install_requires" = none ∧
    setupKwargs.lookup "setup_requires" = none ∧
    setupKwargs.lookup "extras_require" = none ∧
    setupKwargs.lookup "python_requires" = none := by
  decide

/-- Claim C10: the manifest is a constant, deterministic declaration:
`setup.py` performs exactly one call to `setup`, every argument expression
is a literal, and evaluating the arguments in any two environments — any
environment variables, file contents or standard input — yields the same
declarations, namely `setupKwargs`. -/
theorem C10_manifest_constant_and_deterministic :
    (setupPyStmts.filter (PyStmt.isCallTo "setup")).length = 1 ∧
    setupKwargExprs.all (fun kv => kv.2.isLiteral) = true ∧
    (∀ env1 env2 : Env,
      evalKwargs env1 setupKwargExprs = evalKwargs env2 setupKwargExprs) ∧
    (∀ env : Env, evalKwargs env setupKwargExprs = setupKwargs) :=
  ⟨by decide, by decide, fun _ _ => rfl, fun _ => rfl⟩

/-- Witness for C10: instantiating the environment quantifiers at the
trivial environment. -/
theorem C10_manifest_constant_and_deterministic_witness :
    evalKwargs trivEnv setupKwargExprs = evalKwargs trivEnv setupKwargExprs ∧
    evalKwargs trivEnv setupKwargExprs = setupKwargs :=
  ⟨C10_manifest_constant_and_deterministic.2.2.1 trivEnv trivEnv,
   C10_manifest_constant_and_deterministic.2.2.2 trivEnv⟩

end SetupManifest
